import Mathlib

/-
Verification of the sqlverk data-access gateway (src/file.py).

The Python class DatabaseAPI is shallowly embedded here.  The database
state is a record of tables (lists of rows); each operation is a pure
function from the state and its arguments to a DbResult, carrying
  * the Python-level outcome (Except PyError, modelling raised exceptions),
  * the resulting database state, and
  * the trace of SQL statements actually issued to the connection.
Rows fetched with psycopg row_factory=dict_row are modelled as
string-keyed dictionaries, so that the source expression role_result[0]
(integer subscript into a dict) is modelled faithfully as a KeyError.
-/

namespace SqlVerk

/-- Python-level exceptions raised by the gateway.  The constructor names
follow the error taxonomy of the specification where the source raises a
generic Exception with a distinguishing message. -/
inductive PyError where
  | notFound : String → PyError
  | permissionDenied : String → PyError
  | keyError : PyError
  | attributeError : String → PyError
  | valueError : String → PyError
  | dataError : String → PyError
  | dependencyConflict : String → PyError
  deriving Repr, DecidableEq

/-- A SQL statement issued on the connection, tagged by kind. -/
inductive Stmt where
  | select : String → Stmt
  | insert : String → Stmt
  | delete : String → Stmt
  | createRole : String → Stmt
  | grant : String → Stmt
  deriving Repr, DecidableEq

/-- A Python dict subscript: either a string key or an integer key. -/
inductive PyKey where
  | str : String → PyKey
  | int : Int → PyKey
  deriving Repr, DecidableEq

/-- Subscripting a psycopg dict_row.  The keys of such a row are the column
names (strings); subscripting with an integer therefore raises KeyError,
as does a string key that names no column. -/
def dictGet (d : List (String × String)) (k : PyKey) : Except PyError String :=
  match k with
  | PyKey.int _ => Except.error PyError.keyError
  | PyKey.str s =>
    match d.find? (fun kv => kv.1 == s) with
    | some kv => Except.ok kv.2
    | none => Except.error PyError.keyError

/-- Modelled from the spec: the SQL schema files are not under src/, so the
table shapes follow the data model of the specification (section 3).
A row of the Users table.  check_user_credentials reads the stored hash
from a column named password_hashed. -/
structure User where
  username : String
  password_hashed : String
  role_name : String
  deriving Repr, DecidableEq

/-- Modelled from the spec: a row of the Sports table. -/
structure Sport where
  id : Nat
  name : String
  deriving Repr, DecidableEq

/-- Modelled from the spec: a row of the Athletes table.  The height value
is only stored and compared, never computed on, so it is carried as Int. -/
structure AthleteRow where
  id : Nat
  name : String
  gender : String
  height : Int
  deriving Repr, DecidableEq

/-- Modelled from the spec: a row of the Competitions table.  The sport
reference column exists per the data model (inconsistently used); it is
nullable and add_competition never fills it. -/
structure Competition where
  id : Nat
  place : String
  held : Option String
  sport_id : Option Nat
  deriving Repr, DecidableEq

/-- Modelled from the spec: a row of the Results table. -/
structure ResultRow where
  id : Nat
  athleteID : Nat
  sportID : Nat
  competitionID : Nat
  result : Int
  deriving Repr, DecidableEq

/-- Modelled from the spec: a row of the Gender table. -/
structure GenderRow where
  id : Nat
  name : String
  deriving Repr, DecidableEq

/-- The full database state. -/
structure DB where
  users : List User
  sports : List Sport
  athletes : List AthleteRow
  competitions : List Competition
  results : List ResultRow
  genders : List GenderRow
  deriving Repr, DecidableEq

instance {ε α : Type} [DecidableEq ε] [DecidableEq α] : DecidableEq (Except ε α) :=
  fun a b =>
    match a, b with
    | Except.error e1, Except.error e2 =>
      if h : e1 = e2 then Decidable.isTrue (by rw [h]) else
        Decidable.isFalse (by intro hc; cases hc; exact h rfl)
    | Except.ok v1, Except.ok v2 =>
      if h : v1 = v2 then Decidable.isTrue (by rw [h]) else
        Decidable.isFalse (by intro hc; cases hc; exact h rfl)
    | Except.error _, Except.ok _ => Decidable.isFalse (by intro hc; cases hc)
    | Except.ok _, Except.error _ => Decidable.isFalse (by intro hc; cases hc)

/-- Outcome of one gateway operation: the Python result or exception, the
database state afterwards, and the statements issued on the connection. -/
structure DbResult (α : Type) where
  result : Except PyError α
  db : DB
  trace : List Stmt
  deriving Repr, DecidableEq

/-- SELECT ... FROM Users WHERE username=%s, fetchone: the first matching
row or none. -/
def lookupUserRow (db : DB) (username : String) : Option User :=
  db.users.find? (fun u => u.username == username)

/-- The dict_row produced by SELECT role_name FROM Users WHERE username=%s. -/
def roleRowDict (u : User) : List (String × String) :=
  [("role_name", u.role_name)]

/-- The literal role-lookup query shared by the mutating methods. -/
def roleLookupQuery : String := "SELECT role_name FROM Users WHERE username=%s"

/-- The hardcoded writer allow-list. -/
def allowedWriterRoles : List String := ["editor", "theone"]

/-- check_user_credentials after the Users lookup has produced its outcome
(an exception, no row, or a row).  A lookup exception and a missing row
both fall into the except clause of the source and yield None; a
non-verifying password falls off the end of the function and also yields
None. -/
def check_user_credentials_fromLookup (checkpw : String → String → Bool)
    (lookup : Except PyError (Option User)) (password : String) : Option String :=
  match lookup with
  | Except.error _ => none
  | Except.ok none => none
  | Except.ok (some user) =>
    if checkpw password user.password_hashed then some user.role_name else none

/-- check_user_credentials(username, password): bcrypt.checkpw is an
external primitive, passed in as the parameter checkpw. -/
def check_user_credentials (checkpw : String → String → Bool) (db : DB)
    (username password : String) : Option String :=
  check_user_credentials_fromLookup checkpw (Except.ok (lookupUserRow db username)) password

/-- Python slice rows[start:stop] for 0 ≤ start ≤ stop. -/
def pySlice {α : Type} (l : List α) (start stop : Nat) : List α :=
  (l.drop start).take (stop - start)

/-- The fetch-all-then-slice pagination of the source
(retrieve_competitions_from_place_page, retrieve_results_from_sports_and_places_page):
start = (page-1)*items_per_page, stop = start+items_per_page,
return (rows[start:stop], len(rows)). -/
def paginate_slice {α : Type} (rows : List α) (page items_per_page : Nat) : List α × Nat :=
  let start := (page - 1) * items_per_page
  (pySlice rows start (start + items_per_page), rows.length)

/-- A psycopg client-side cursor over the fetched rows: the rows not yet
fetched, and the rowcount of the executed statement. -/
structure Cursor (α : Type) where
  pending : List α
  rowcount : Nat

/-- cursor.fetchmany(n): the next n (or fewer) rows, advancing the cursor. -/
def Cursor.fetchmany {α : Type} (c : Cursor α) (n : Nat) : List α × Cursor α :=
  (c.pending.take n, ⟨c.pending.drop n, c.rowcount⟩)

/-- The cursor-relative fetchmany pagination of the source
(retrieve_athletes_page): total = cur.rowcount; if start != 0 skip start
rows with fetchmany; then fetchmany(items_per_page). -/
def paginate_cursor {α : Type} (rows : List α) (page items_per_page : Nat) : List α × Nat :=
  let start := (page - 1) * items_per_page
  let cur : Cursor α := ⟨rows, rows.length⟩
  let total := cur.rowcount
  let cur := if start ≠ 0 then (cur.fetchmany start).2 else cur
  ((cur.fetchmany items_per_page).1, total)

/-- The concatenation of the row slices of pages 1..n. -/
def pages_concat {α : Type} (rows : List α) (items_per_page n : Nat) : List α :=
  ((List.range n).map (fun i => (paginate_slice rows (i + 1) items_per_page).1)).flatten

/-- Insertion step of the stable sort used to model ORDER BY. -/
def insertLe {α : Type} (le : α → α → Bool) (a : α) : List α → List α
  | [] => [a]
  | b :: bs => if le a b then a :: b :: bs else b :: insertLe le a bs

/-- Stable insertion sort modelling ORDER BY with a boolean comparison. -/
def sortByLe {α : Type} (le : α → α → Bool) : List α → List α
  | [] => []
  | a :: as => insertLe le a (sortByLe le as)

/-- Comparison on a nullable text column, NULLs sorting last ascending. -/
def optStrLe : Option String → Option String → Bool
  | none, none => true
  | none, some _ => false
  | some _, none => true
  | some a, some b => decide (a ≤ b)

/-- ORDER BY comparison for the Athletes sort keys. -/
def athleteLe (key : String) (a b : AthleteRow) : Bool :=
  if key == "id" then decide (a.id ≤ b.id)
  else if key == "name" then decide (a.name ≤ b.name)
  else if key == "gender" then decide (a.gender ≤ b.gender)
  else decide (a.height ≤ b.height)

/-- ORDER BY comparison for the Competitions sort keys. -/
def competitionLe (key : String) (a b : Competition) : Bool :=
  if key == "id" then decide (a.id ≤ b.id)
  else if key == "place" then decide (a.place ≤ b.place)
  else optStrLe a.held b.held

/-- The sort_by argument: a dict with a key and an order. -/
structure SortBy where
  key : String
  order : String
  deriving Repr, DecidableEq

/-- The fixed sortable-column set of the Athletes table. -/
def athleteColumns : List String := ["id", "name", "gender", "height"]

/-- The fixed sortable-column set of the Competitions table. -/
def competitionColumns : List String := ["id", "place", "held"]

/-- retrieve_all_sports(): SELECT * FROM Sports. -/
def retrieve_all_sports (db : DB) : DbResult (List Sport) :=
  ⟨Except.ok db.sports, db, [Stmt.select "SELECT * FROM Sports"]⟩

/-- retrieve_athletes_page(page, items_per_page, sort_by): validates the
sort key against the fixed column set (raising pg.errors.DataError before
any query when it is absent), executes the query and paginates with the
cursor fetchmany strategy. -/
def retrieve_athletes_page (db : DB) (page items_per_page : Nat)
    (sort_by : Option SortBy) : DbResult (List AthleteRow × Nat) :=
  match sort_by with
  | none =>
    ⟨Except.ok (paginate_cursor db.athletes page items_per_page), db,
     [Stmt.select "SELECT * FROM Athletes"]⟩
  | some sb =>
    if sb.key ∉ athleteColumns then
      ⟨Except.error (PyError.dataError
        ("The provided sort key does not match any columns of the Athletes table! Key: " ++ sb.key)),
       db, []⟩
    else if sb.order == "desc" then
      ⟨Except.ok (paginate_cursor (sortByLe (fun a b => athleteLe sb.key b a) db.athletes)
          page items_per_page), db,
       [Stmt.select ("SELECT * FROM Athletes ORDER BY " ++ sb.key ++ " DESC")]⟩
    else
      ⟨Except.ok (paginate_cursor (sortByLe (athleteLe sb.key) db.athletes)
          page items_per_page), db,
       [Stmt.select ("SELECT * FROM Athletes ORDER BY " ++ sb.key)]⟩

/-- The next id handed out by the Athletes serial column. -/
def nextAthleteId (db : DB) : Nat :=
  (db.athletes.map (fun a => a.id)).foldr Nat.max 0 + 1

/-- add_athlete(username, name, gender, height): role lookup, None check,
role_result[&quot;role_name&quot;], allow-list check, then INSERT INTO Athletes. -/
def add_athlete (db : DB) (username name gender : String) (height : Int) : DbResult Unit :=
  let tr0 := [Stmt.select roleLookupQuery]
  match lookupUserRow db username with
  | none => ⟨Except.error (PyError.notFound "Username not found"), db, tr0⟩
  | some u =>
    match dictGet (roleRowDict u) (PyKey.str "role_name") with
    | Except.error e => ⟨Except.error e, db, tr0⟩
    | Except.ok role =>
      if role ∉ allowedWriterRoles then
        ⟨Except.error (PyError.permissionDenied "You do not have permission to add athletes."),
         db, tr0⟩
      else
        ⟨Except.ok (),
         { db with athletes := db.athletes ++ [⟨nextAthleteId db, name, gender, height⟩] },
         tr0 ++ [Stmt.insert "Athletes"]⟩

/-- Modelled from the spec: the Insert_athlete SQL function called by
add_athlete_sql_function is not under src/ (it lives in the database).
Per the shared pre-check of the spec it resolves the acting username to a
role, failing with NotFoundError when the user does not exist and with
PermissionError when the role is outside the writer allow-list, and only
then inserts the athlete row and returns the new id. -/
def insert_athlete_fn (db : DB) (username name : String) (height : Int)
    (gender : String) : Except PyError (Nat × DB) :=
  match lookupUserRow db username with
  | none => Except.error (PyError.notFound "Username not found")
  | some u =>
    if u.role_name ∉ allowedWriterRoles then
      Except.error (PyError.permissionDenied "No permission to add athletes.")
    else
      Except.ok (nextAthleteId db,
        { db with athletes := db.athletes ++ [⟨nextAthleteId db, name, gender, height⟩] })

/-- add_athlete_sql_function(username, name, gender, height): executes
SELECT Insert_athlete(%s, %s, %s, %s).  An exception raised inside the SQL
function propagates with the database unchanged.  On success the fetched
dict_row has the single column insert_athlete, so the source expression
result[0] raises KeyError after the insert has already been committed. -/
def add_athlete_sql_function (db : DB) (username name gender : String)
    (height : Int) : DbResult Nat :=
  let tr := [Stmt.select "SELECT Insert_athlete(%s, %s, %s, %s)"]
  match insert_athlete_fn db username name height gender with
  | Except.error e => ⟨Except.error e, db, tr⟩
  | Except.ok (i, db1) =>
    match dictGet [("insert_athlete", toString i)] (PyKey.int 0) with
    | Except.error e => ⟨Except.error e, db1, tr⟩
    | Except.ok _ => ⟨Except.ok i, db1, tr⟩

/-- retrieve_competitions_from_place_page(place, page, items_per_page,
sort_by): validates the sort key (DataError before any query when absent),
fetches all rows matching the place and paginates with rows[start:end]. -/
def retrieve_competitions_from_place_page (db : DB) (place : String)
    (page items_per_page : Nat) (sort_by : Option SortBy) :
    DbResult (List Competition × Nat) :=
  let base := db.competitions.filter (fun c => c.place == place)
  match sort_by with
  | none =>
    ⟨Except.ok (paginate_slice base page items_per_page), db,
     [Stmt.select "SELECT * FROM Competitions WHERE place=%s"]⟩
  | some sb =>
    if sb.key ∉ competitionColumns then
      ⟨Except.error (PyError.dataError
        ("The provided sort key does not match any columns of the Competitions table! Key: " ++ sb.key)),
       db, []⟩
    else if sb.order == "desc" then
      ⟨Except.ok (paginate_slice (sortByLe (fun a b => competitionLe sb.key b a) base)
          page items_per_page), db,
       [Stmt.select ("SELECT * FROM Competitions WHERE place=%s ORDER BY " ++ sb.key ++ " DESC")]⟩
    else
      ⟨Except.ok (paginate_slice (sortByLe (competitionLe sb.key) base)
          page items_per_page), db,
       [Stmt.select ("SELECT * FROM Competitions WHERE place=%s ORDER BY " ++ sb.key)]⟩

/-- Deduplication preserving first occurrence, modelling SELECT DISTINCT. -/
def distinctKeepFirst (l : List String) : List String :=
  l.foldl (fun acc p => if acc.contains p then acc else acc ++ [p]) []

/-- retrieve_competition_places(): SELECT DISTINCT place FROM Competitions. -/
def retrieve_competition_places (db : DB) : DbResult (List String) :=
  ⟨Except.ok (distinctKeepFirst (db.competitions.map (fun c => c.place))), db,
   [Stmt.select "SELECT DISTINCT place FROM Competitions"]⟩

/-- Python int() on a string, raising ValueError when it does not parse. -/
def pyInt (s : String) : Except PyError Int :=
  match s.toInt? with
  | some n => Except.ok n
  | none => Except.error (PyError.valueError ("invalid literal for int() with base 10: " ++ s))

/-- The next id handed out by the Competitions serial column. -/
def nextCompetitionId (db : DB) : Nat :=
  (db.competitions.map (fun c => c.id)).foldr Nat.max 0 + 1

/-- add_competition(username, place, held=None): role lookup and allow-list
check, then competition_year = int(held.split(&quot;-&quot;)[0]).  When held is
None the attribute access held.split raises AttributeError; a year below
2024 raises ValueError; otherwise the row is inserted and its id returned. -/
def add_competition (db : DB) (username place : String) (held : Option String) :
    DbResult Nat :=
  let tr0 := [Stmt.select roleLookupQuery]
  match lookupUserRow db username with
  | none => ⟨Except.error (PyError.notFound "Username not found"), db, tr0⟩
  | some u =>
    match dictGet (roleRowDict u) (PyKey.str "role_name") with
    | Except.error e => ⟨Except.error e, db, tr0⟩
    | Except.ok role =>
      if role ∉ allowedWriterRoles then
        ⟨Except.error (PyError.permissionDenied "you have no permission to add competitions."),
         db, tr0⟩
      else
        match held with
        | none =>
          ⟨Except.error (PyError.attributeError "NoneType object has no attribute split"),
           db, tr0⟩
        | some h =>
          match pyInt ((h.splitOn "-").headD "") with
          | Except.error e => ⟨Except.error e, db, tr0⟩
          | Except.ok year =>
            if year < 2024 then
              ⟨Except.error (PyError.valueError "Competitions have to be held after 2024."),
               db, tr0⟩
            else
              ⟨Except.ok (nextCompetitionId db),
               { db with competitions :=
                  db.competitions ++ [⟨nextCompetitionId db, place, some h, none⟩] },
               tr0 ++ [Stmt.insert "Competitions"]⟩

/-- retrieve_all_results(): SELECT * FROM Results. -/
def retrieve_all_results (db : DB) : DbResult (List ResultRow) :=
  ⟨Except.ok db.results, db, [Stmt.select "SELECT * FROM Results"]⟩

/-- One row of the Results join of retrieve_results_from_sports_and_places_page. -/
structure ResultJoinRow where
  place : String
  held : Option String
  sport : String
  athleteid : Nat
  name : String
  result : Int
  deriving Repr, DecidableEq

/-- The inner join Results x Competitions x Sports x Athletes on the id
references, producing the selected columns. -/
def resultsJoin (db : DB) : List ResultJoinRow :=
  db.results.flatMap (fun r =>
    (db.competitions.filter (fun c => c.id == r.competitionID)).flatMap (fun c =>
      (db.sports.filter (fun s => s.id == r.sportID)).flatMap (fun s =>
        (db.athletes.filter (fun a => a.id == r.athleteID)).map (fun a =>
          ⟨c.place, c.held, s.name, a.id, a.name, r.result⟩))))

/-- The WHERE clause built from the places and sports filters: one
set-membership predicate per non-empty filter list, conjoined with AND;
no WHERE clause at all when both lists are empty. -/
def resultsFilteredRows (db : DB) (places sports : List String) : List ResultJoinRow :=
  let preds : List (ResultJoinRow → Bool) :=
    (if places.isEmpty then [] else [fun r => places.contains r.place]) ++
    (if sports.isEmpty then [] else [fun r => sports.contains r.sport])
  if preds.isEmpty then resultsJoin db
  else (resultsJoin db).filter (fun r => preds.all (fun p => p r))

/-- The valid sort keys of the results query. -/
def resultKeys : List String := ["place", "held", "sport", "athleteid", "name", "result"]

/-- The ORDER BY guard of the results query: the key must be in the valid
set and the lowercased order must be asc or desc; otherwise the sort is
silently skipped. -/
def resultsSortOk (sb : SortBy) : Bool :=
  decide (sb.key ∈ resultKeys) &&
    (sb.order.toLower == "asc" || sb.order.toLower == "desc")

/-- ORDER BY comparison for the results query sort keys. -/
def resultLe (key : String) (a b : ResultJoinRow) : Bool :=
  if key == "place" then decide (a.place ≤ b.place)
  else if key == "held" then optStrLe a.held b.held
  else if key == "sport" then decide (a.sport ≤ b.sport)
  else if key == "athleteid" then decide (a.athleteid ≤ b.athleteid)
  else if key == "name" then decide (a.name ≤ b.name)
  else decide (a.result ≤ b.result)

/-- The base SELECT of the results query. -/
def resultsBaseQuery : String :=
  "SELECT c.place,c.held,s.name AS sport, a.id AS athleteid, a.name,r.result FROM Results R JOIN Competitions c ON r.competitionID= c.ID JOIN Sports s ON r.sportID = s.ID JOIN Athletes a ON r.athleteID = a.ID"

/-- The query text of the results query as the source composes it: the
filter placeholders joined with AND after WHERE, and the ORDER BY clause
appended only when the sort guard passes. -/
def resultsQueryText (places sports : List String) (sort_by : Option SortBy) : String :=
  let filters :=
    (if places.isEmpty then [] else ["c.place=ANY(%s)"]) ++
    (if sports.isEmpty then [] else ["s.name=ANY(%s)"])
  let q :=
    if filters.isEmpty then resultsBaseQuery
    else resultsBaseQuery ++ " WHERE " ++ String.intercalate " AND " filters
  match sort_by with
  | none => q
  | some sb =>
    if resultsSortOk sb then
      -- order.upper() under the guard order.lower() ∈ {asc, desc} is DESC
      -- exactly when the lowercased order is desc, and ASC otherwise
      if sb.order.toLower == "desc" then q ++ " ORDER BY " ++ sb.key ++ " DESC"
      else q ++ " ORDER BY " ++ sb.key ++ " ASC"
    else q

/-- retrieve_results_from_sports_and_places_page(places, sports, page,
items_per_page, sort_by): builds the filtered join query, optionally adds
ORDER BY when the sort guard passes (an invalid key is silently ignored),
executes it, and paginates the fetched rows with rows[start:end]. -/
def retrieve_results_from_sports_and_places_page (db : DB) (places sports : List String)
    (page items_per_page : Nat) (sort_by : Option SortBy) :
    DbResult (List ResultJoinRow × Nat) :=
  let filtered := resultsFilteredRows db places sports
  let rows :=
    match sort_by with
    | none => filtered
    | some sb =>
      if resultsSortOk sb then
        if sb.order.toLower == "desc" then sortByLe (fun a b => resultLe sb.key b a) filtered
        else sortByLe (resultLe sb.key) filtered
      else filtered
  ⟨Except.ok (paginate_slice rows page items_per_page), db,
   [Stmt.select (resultsQueryText places sports sort_by)]⟩

/-- The id of the sport with the given name (the scalar subquery
SELECT id FROM Sports WHERE name=%s), none when the sport is absent. -/
def sportIdByName (db : DB) (name : String) : Option Nat :=
  (db.sports.find? (fun s => s.name == name)).map (fun s => s.id)

/-- Whether a non-null sport reference matches the scalar subquery value;
a NULL subquery value (missing sport) matches nothing. -/
def natMatchesOpt (x : Nat) (sid : Option Nat) : Bool :=
  match sid with
  | some i => x == i
  | none => false

/-- Whether a nullable sport reference matches the scalar subquery value. -/
def optMatchesOpt (x : Option Nat) (sid : Option Nat) : Bool :=
  match x, sid with
  | some a, some b => a == b
  | _, _ => false

/-- The dependency probe of delete_sport: SELECT 1 FROM Results ... UNION
SELECT 1 FROM Competitions ... is non-empty exactly when some dependent
row references the sport. -/
def dependenciesExist (db : DB) (sid : Option Nat) : Bool :=
  db.results.any (fun r => natMatchesOpt r.sportID sid) ||
    db.competitions.any (fun c => optMatchesOpt c.sport_id sid)

/-- delete_sport(username, sport_name, force_delete=False): the second,
shadowing definition of the source (the effective method).  It fetches the
role row as a dict and subscripts it with the integer 0 (role_result[0]),
which raises KeyError for every existing user before the allow-list check,
the dependency check or any deletion is reached. -/
def delete_sport (db : DB) (username sport_name : String) (force_delete : Bool) :
    DbResult Unit :=
  let tr0 := [Stmt.select roleLookupQuery]
  match lookupUserRow db username with
  | none => ⟨Except.error (PyError.notFound "Username not found"), db, tr0⟩
  | some u =>
    match dictGet (roleRowDict u) (PyKey.int 0) with
    | Except.error e => ⟨Except.error e, db, tr0⟩
    | Except.ok role =>
      if role ∉ allowedWriterRoles then
        ⟨Except.error (PyError.permissionDenied "You do not have permission to delete a sport."),
         db, tr0⟩
      else
        let sid := sportIdByName db sport_name
        let tr1 := tr0 ++ [Stmt.select "SELECT 1 FROM Results UNION SELECT 1 FROM Competitions WHERE sport_id matches"]
        if dependenciesExist db sid && !force_delete then
          ⟨Except.error (PyError.dependencyConflict
            ("Cannot delete sport " ++ sport_name ++ " because it has associated records in other tables.")),
           db, tr1⟩
        else if force_delete then
          let db1 := { db with results := db.results.filter (fun r => !(natMatchesOpt r.sportID sid)) }
          let db2 := { db1 with competitions := db1.competitions.filter (fun c => !(optMatchesOpt c.sport_id sid)) }
          let db3 := { db2 with sports := db2.sports.filter (fun s => !(s.name == sport_name)) }
          ⟨Except.ok (), db3,
           tr1 ++ [Stmt.delete "Results", Stmt.delete "Competitions", Stmt.delete "Sports"]⟩
        else
          ⟨Except.ok (),
           { db with sports := db.sports.filter (fun s => !(s.name == sport_name)) },
           tr1 ++ [Stmt.delete "Sports"]⟩

/-- create_role_and_user(conn, role_name, username, password): interpolates
role_name directly into CREATE ROLE and GRANT statements with no
validation of any kind, hashes the password (bcrypt passed in as hashpw)
and inserts the user row.  Exceptions are swallowed after a rollback, so
the call itself never raises. -/
def create_role_and_user (db : DB) (role_name username password : String)
    (hashpw : String → String) : DbResult Unit :=
  ⟨Except.ok (),
   { db with users := db.users ++ [⟨username, hashpw password, role_name⟩] },
   [Stmt.createRole ("CREATE ROLE " ++ role_name ++ " WITH LOGIN;"),
    Stmt.grant ("GRANT INSERT ON Competitions TO " ++ role_name ++ ";"),
    Stmt.grant ("GRANT SELECT ON Athletes, Results TO " ++ role_name ++ ";"),
    Stmt.insert "Users"]⟩

/-- retrieve_all_genders(): SELECT * FROM Gender. -/
def retrieve_all_genders (db : DB) : DbResult (List GenderRow) :=
  ⟨Except.ok db.genders, db, [Stmt.select "SELECT * FROM Gender"]⟩

/-- The identifier pattern the spec requires for role and user names
before interpolation into role-creation statements. -/
def isIdentStartChar (c : Char) : Bool := c.isAlpha || c == '_'

/-- A non-leading character of the identifier pattern of the spec. -/
def isIdentTailChar (c : Char) : Bool := c.isAlphanum || c == '_'

/-- Whether a string matches the identifier pattern of the spec. -/
def specIdentOk (s : String) : Bool :=
  match s.data with
  | [] => false
  | c :: cs => isIdentStartChar c && cs.all isIdentTailChar

/-- Substring membership on character lists: sub occurs somewhere in l. -/
def listContainsSub (sub : List Char) : List Char → Bool
  | [] => sub.isEmpty
  | c :: cs => sub.isPrefixOf (c :: cs) || listContainsSub sub cs

/-- Whether a statement text mentions a substring. -/
def strContainsSub (s sub : String) : Bool := listContainsSub sub.data s.data

/-- Whether a statement is a plain SELECT. -/
def stmtIsSelect : Stmt → Bool
  | Stmt.select _ => true
  | _ => false

/-- Whether a statement touches the Users table or role management. -/
def stmtTouchesUsers : Stmt → Bool
  | Stmt.select q => strContainsSub q "Users"
  | Stmt.insert t => t == "Users"
  | Stmt.delete t => t == "Users"
  | Stmt.createRole _ => true
  | Stmt.grant _ => true

/-- A read-only operation outcome: the database state is unchanged and
every issued statement is a SELECT that does not touch the Users table. -/
def readOnlyFrame {α : Type} (r : DbResult α) (db : DB) : Prop :=
  r.db = db ∧ r.trace.all (fun s => stmtIsSelect s && !(stmtTouchesUsers s)) = true

/-- The empty database. -/
def dbEmpty : DB := ⟨[], [], [], [], [], []⟩

/-- A database with one non-editor user and one sport. -/
def dbC1 : DB := ⟨[⟨"reader1", "hashR", "viewer"⟩], [⟨1, "Judo"⟩], [], [], [], []⟩

/-- A database with two users of distinct roles. -/
def dbC2 : DB := ⟨[⟨"alice", "hashA", "editor"⟩, ⟨"bob", "hashB", "viewer"⟩], [], [], [], [], []⟩

/-- A database with an editor, a sport and a dependent result row. -/
def dbC3 : DB :=
  ⟨[⟨"editor1", "hashE", "editor"⟩], [⟨1, "Judo"⟩], [⟨1, "Ann", "F", 170⟩],
   [⟨1, "Springfield", some "2024-05-01", none⟩], [⟨1, 1, 1, 1, 95⟩], []⟩

/-- A database with just an editor user. -/
def dbC5 : DB := ⟨[⟨"editor1", "hashE", "editor"⟩], [], [], [], [], []⟩

/-- A database with joined rows in two places and two sports. -/
def dbC7 : DB :=
  ⟨[], [⟨1, "Judo"⟩, ⟨2, "Karate"⟩], [⟨1, "Ann", "F", 170⟩, ⟨2, "Bo", "M", 180⟩],
   [⟨1, "Springfield", some "2024-05-01", none⟩, ⟨2, "Shelbyville", some "2024-06-01", none⟩],
   [⟨1, 1, 1, 1, 95⟩, ⟨2, 2, 2, 2, 88⟩], []⟩

theorem paginate_cursor_eq_slice {α : Type} (rows : List α) (page ipp : Nat) :
    paginate_cursor rows page ipp = paginate_slice rows page ipp := by
  unfold paginate_cursor paginate_slice Cursor.fetchmany pySlice
  by_cases h : (page - 1) * ipp = 0
  · simp [h]
  · simp [h, Nat.add_sub_cancel_left]

theorem pages_concat_take {α : Type} (rows : List α) (ipp : Nat) :
    ∀ k, pages_concat rows ipp k = rows.take (k * ipp) := by
  intro k
  induction k with
  | zero => simp [pages_concat]
  | succ k ih =>
    have hslice : (paginate_slice rows (k + 1) ipp).1 = (rows.drop (k * ipp)).take ipp := by
      simp [paginate_slice, pySlice, Nat.add_sub_cancel_left]
    calc pages_concat rows ipp (k + 1)
        = pages_concat rows ipp k ++ (paginate_slice rows (k + 1) ipp).1 := by
          simp [pages_concat, List.range_succ]
      _ = rows.take (k * ipp) ++ (rows.drop (k * ipp)).take ipp := by rw [ih, hslice]
      _ = rows.take (k * ipp + ipp) := (List.take_add rows (k * ipp) ipp).symm
      _ = rows.take ((k + 1) * ipp) := by rw [Nat.succ_mul]

theorem le_ceil_div_mul (n ipp : Nat) (h : 1 ≤ ipp) :
    n ≤ ((n + ipp - 1) / ipp) * ipp := by
  rcases Nat.eq_zero_or_pos n with h0 | h0
  · simp [h0]
  · have hrw : n + ipp - 1 = (n - 1) + ipp := by omega
    rw [hrw, Nat.add_div_right _ (by omega : 0 < ipp), Nat.succ_mul]
    have h1 := Nat.div_add_mod (n - 1) ipp
    have h2 := Nat.mod_lt (n - 1) (show 0 < ipp by omega)
    rw [Nat.mul_comm] at h1
    generalize hq : (n - 1) / ipp = q at h1 ⊢
    generalize hr : (n - 1) % ipp = r at h1 h2
    generalize hm : q * ipp = m at h1 ⊢
    omega

/-- C1: the claim requires every mutating operation to fail with
NotFoundError for a missing user and with PermissionError for a role
outside the writer allow-list, closing before any mutation.  The code
violates the PermissionError part: delete_sport subscripts the fetched
dict row with the integer 0, so a call by an existing non-editor user
raises KeyError (the allow-list check and its PermissionError raise are
unreachable), although the tables are indeed left unchanged. -/
theorem c1_delete_sport_keyerror_in_place_of_permission :
    (delete_sport dbC1 "reader1" "Judo" false).result = Except.error PyError.keyError
    ∧ (delete_sport dbC1 "reader1" "Judo" false).db = dbC1 := by
  constructor <;> rfl

/-- C2: check_user_credentials returns the stored role exactly when the
user row is found and the password verifies; a missing user, a failing
verification and a lookup exception all return the same None outcome,
never an exception. -/
theorem c2_check_user_credentials_contract (checkpw : String → String → Bool)
    (db : DB) (username password : String) :
    (∀ u, lookupUserRow db username = some u →
      (checkpw password u.password_hashed = true →
        check_user_credentials checkpw db username password = some u.role_name)
      ∧ (checkpw password u.password_hashed = false →
        check_user_credentials checkpw db username password = none))
    ∧ (lookupUserRow db username = none →
        check_user_credentials checkpw db username password = none)
    ∧ (∀ e, check_user_credentials_fromLookup checkpw (Except.error e) password = none) := by
  refine ⟨?_, ?_, ?_⟩
  · intro u hu
    constructor <;> intro hpw <;>
      simp [check_user_credentials, check_user_credentials_fromLookup, hu, hpw]
  · intro hu
    simp [check_user_credentials, check_user_credentials_fromLookup, hu]
  · intro e
    rfl

theorem c2_witness :
    check_user_credentials (fun p h => p == h) dbC2 "alice" "hashA" = some "editor"
    ∧ check_user_credentials (fun p h => p == h) dbC2 "alice" "wrong" = none
    ∧ check_user_credentials (fun p h => p == h) dbC2 "ghost" "hashA" = none := by
  refine ⟨?_, ?_, ?_⟩
  · exact ((c2_check_user_credentials_contract (fun p h => p == h) dbC2 "alice" "hashA").1
      ⟨"alice", "hashA", "editor"⟩ (by decide)).1 (by decide)
  · exact ((c2_check_user_credentials_contract (fun p h => p == h) dbC2 "alice" "wrong").1
      ⟨"alice", "hashA", "editor"⟩ (by decide)).2 (by decide)
  · exact (c2_check_user_credentials_contract (fun p h => p == h) dbC2 "ghost" "hashA").2.1
      (by decide)

/-- C3: the claim requires delete_sport on a sport with dependent Result
rows to fail with DependencyConflict when force_delete is false.  The code
never reaches the dependency check: the dict row subscript role_result[0]
raises KeyError even for an authorized editor, so the call fails with
KeyError (the tables are unchanged, but not for the claimed reason, and no
deletion path is reachable at all). -/
theorem c3_delete_sport_dependency_check_unreachable :
    (delete_sport dbC3 "editor1" "Judo" false).result = Except.error PyError.keyError
    ∧ (delete_sport dbC3 "editor1" "Judo" false).db = dbC3
    ∧ (delete_sport dbC3 "editor1" "Judo" true).result = Except.error PyError.keyError
    ∧ (delete_sport dbC3 "editor1" "Judo" true).db = dbC3 := by
  refine ⟨rfl, rfl, rfl, rfl⟩

/-- C4: for any row set and page, itemsPerPage ≥ 1, the returned slice is
rows[offset : offset+itemsPerPage] with offset = (page-1)*itemsPerPage,
its length is at most itemsPerPage, the returned total is the full row
count, concatenating pages 1..ceil(total/itemsPerPage) rebuilds the row
set exactly, and the cursor strategy agrees with the slice strategy. -/
theorem c4_pagination_contract {α : Type} (rows : List α) (page ipp : Nat)
    (hp : 1 ≤ page) (hi : 1 ≤ ipp) :
    (paginate_slice rows page ipp).1
      = pySlice rows ((page - 1) * ipp) ((page - 1) * ipp + ipp)
    ∧ ((paginate_slice rows page ipp).1).length ≤ ipp
    ∧ (paginate_slice rows page ipp).2 = rows.length
    ∧ pages_concat rows ipp ((rows.length + ipp - 1) / ipp) = rows
    ∧ paginate_cursor rows page ipp = paginate_slice rows page ipp := by
  refine ⟨rfl, ?_, rfl, ?_, paginate_cursor_eq_slice rows page ipp⟩
  · have hlen : ((paginate_slice rows page ipp).1).length
        = min ipp ((rows.drop ((page - 1) * ipp)).length) := by
      simp [paginate_slice, pySlice, List.length_take, Nat.add_sub_cancel_left]
    rw [hlen]
    exact Nat.min_le_left _ _
  · rw [pages_concat_take rows ipp ((rows.length + ipp - 1) / ipp)]
    exact List.take_of_length_le (le_ceil_div_mul rows.length ipp hi)

theorem c4_witness :
    (paginate_slice ([10, 20, 30, 40, 50] : List Nat) 2 2).1
      = pySlice ([10, 20, 30, 40, 50] : List Nat) ((2 - 1) * 2) ((2 - 1) * 2 + 2)
    ∧ ((paginate_slice ([10, 20, 30, 40, 50] : List Nat) 2 2).1).length ≤ 2
    ∧ (paginate_slice ([10, 20, 30, 40, 50] : List Nat) 2 2).2
      = ([10, 20, 30, 40, 50] : List Nat).length
    ∧ pages_concat ([10, 20, 30, 40, 50] : List Nat) 2
        ((([10, 20, 30, 40, 50] : List Nat).length + 2 - 1) / 2) = [10, 20, 30, 40, 50]
    ∧ paginate_cursor ([10, 20, 30, 40, 50] : List Nat) 2 2
      = paginate_slice ([10, 20, 30, 40, 50] : List Nat) 2 2 :=
  c4_pagination_contract ([10, 20, 30, 40, 50] : List Nat) 2 2 (by decide) (by decide)

/-- C5: the claim requires addCompetition to succeed when the optional
held date is omitted.  The code unconditionally evaluates
held.split(&quot;-&quot;), so held=None raises AttributeError for an authorized
editor, contradicting both the claim and the declared signature
held: str | None = None. -/
theorem c5_add_competition_none_held_raises :
    (add_competition dbC5 "editor1" "Springfield" none).result
      = Except.error (PyError.attributeError "NoneType object has no attribute split")
    ∧ (add_competition dbC5 "editor1" "Springfield" none).db = dbC5 := by
  refine ⟨rfl, rfl⟩

/-- C6 counterexample: the claim says every paginated operation fails with
ValidationError and performs no query on an unrecognized sort key.  The
results page instead ignores the invalid key silently: the call succeeds
and the (unsorted) query is executed. -/
theorem c6_counterexample_results_page_ignores_bad_key :
    ¬ ("badkey" ∈ resultKeys)
    ∧ (retrieve_results_from_sports_and_places_page dbEmpty [] [] 1 10
        (some ⟨"badkey", "asc"⟩)).result = Except.ok ([], 0)
    ∧ (retrieve_results_from_sports_and_places_page dbEmpty [] [] 1 10
        (some ⟨"badkey", "asc"⟩)).trace = [Stmt.select resultsBaseQuery] := by
  refine ⟨by decide, ?_, ?_⟩ <;> rfl

/-- C6 (amended): the Athletes and Competitions pages reject an
unrecognized sort key with a DataError before issuing any query; the
results page silently ignores an unrecognized key and behaves exactly as
an unsorted call, query included. -/
theorem c6_amended_sort_key_validation (db : DB) (page ipp : Nat) (sb : SortBy)
    (place : String) (places sports : List String) :
    (sb.key ∉ athleteColumns →
      retrieve_athletes_page db page ipp (some sb)
        = ⟨Except.error (PyError.dataError
            ("The provided sort key does not match any columns of the Athletes table! Key: " ++ sb.key)),
           db, []⟩)
    ∧ (sb.key ∉ competitionColumns →
      retrieve_competitions_from_place_page db place page ipp (some sb)
        = ⟨Except.error (PyError.dataError
            ("The provided sort key does not match any columns of the Competitions table! Key: " ++ sb.key)),
           db, []⟩)
    ∧ (sb.key ∉ resultKeys →
      retrieve_results_from_sports_and_places_page db places sports page ipp (some sb)
        = retrieve_results_from_sports_and_places_page db places sports page ipp none) := by
  refine ⟨?_, ?_, ?_⟩
  · intro h1
    simp [retrieve_athletes_page, h1]
  · intro h2
    simp [retrieve_competitions_from_place_page, h2]
  · intro h3
    simp [retrieve_results_from_sports_and_places_page, resultsQueryText, resultsSortOk, h3]

theorem c6_witness :
    retrieve_athletes_page dbEmpty 1 10 (some ⟨"held", "asc"⟩)
      = ⟨Except.error (PyError.dataError
          ("The provided sort key does not match any columns of the Athletes table! Key: " ++ "held")),
         dbEmpty, []⟩
    ∧ retrieve_competitions_from_place_page dbEmpty "Springfield" 1 10 (some ⟨"gender", "asc"⟩)
      = ⟨Except.error (PyError.dataError
          ("The provided sort key does not match any columns of the Competitions table! Key: " ++ "gender")),
         dbEmpty, []⟩
    ∧ retrieve_results_from_sports_and_places_page dbEmpty ["Springfield"] [] 1 10
        (some ⟨"id", "asc"⟩)
      = retrieve_results_from_sports_and_places_page dbEmpty ["Springfield"] [] 1 10 none :=
  ⟨(c6_amended_sort_key_validation dbEmpty 1 10 ⟨"held", "asc"⟩ "Springfield" ["Springfield"] []).1
      (by decide),
   (c6_amended_sort_key_validation dbEmpty 1 10 ⟨"gender", "asc"⟩ "Springfield" ["Springfield"] []).2.1
      (by decide),
   (c6_amended_sort_key_validation dbEmpty 1 10 ⟨"id", "asc"⟩ "Springfield" ["Springfield"] []).2.2
      (by decide)⟩

/-- C7: the places and sports arguments are optional set-membership
filters: both empty means the full join, one non-empty restricts only
that dimension, both non-empty conjoin the two membership predicates. -/
theorem c7_results_filter_combination (db : DB) (places sports : List String) :
    (places = [] → sports = [] → resultsFilteredRows db places sports = resultsJoin db)
    ∧ (places ≠ [] → sports = [] →
        resultsFilteredRows db places sports
          = (resultsJoin db).filter (fun r => places.contains r.place))
    ∧ (places = [] → sports ≠ [] →
        resultsFilteredRows db places sports
          = (resultsJoin db).filter (fun r => sports.contains r.sport))
    ∧ (places ≠ [] → sports ≠ [] →
        resultsFilteredRows db places sports
          = (resultsJoin db).filter
              (fun r => places.contains r.place && sports.contains r.sport)) := by
  refine ⟨?_, ?_, ?_, ?_⟩
  · rintro rfl rfl; rfl
  · intro hp hs
    subst hs
    cases places with
    | nil => exact absurd rfl hp
    | cons p ps => simp [resultsFilteredRows]
  · intro hp hs
    subst hp
    cases sports with
    | nil => exact absurd rfl hs
    | cons s ss => simp [resultsFilteredRows]
  · intro hp hs
    cases places with
    | nil => exact absurd rfl hp
    | cons p ps =>
      cases sports with
      | nil => exact absurd rfl hs
      | cons s ss => simp [resultsFilteredRows]

theorem c7_witness :
    resultsFilteredRows dbC7 ["Springfield"] []
      = (resultsJoin dbC7).filter (fun r => (["Springfield"] : List String).contains r.place)
    ∧ resultsFilteredRows dbC7 ["Springfield"] []
      = [⟨"Springfield", some "2024-05-01", "Judo", 1, "Ann", 95⟩] := by
  refine ⟨?_, by decide⟩
  exact (c7_results_filter_combination dbC7 ["Springfield"] []).2.1 (by decide) rfl

/-- C8: the fetch-all-then-slice strategy and the cursor-relative
fetchmany strategy return the same (rows, totalCount) pair on every row
set and every page, itemsPerPage ≥ 1. -/
theorem c8_pagination_strategies_equivalent {α : Type} (rows : List α) (page ipp : Nat)
    (hp : 1 ≤ page) (hi : 1 ≤ ipp) :
    paginate_cursor rows page ipp = paginate_slice rows page ipp :=
  paginate_cursor_eq_slice rows page ipp

theorem c8_witness :
    paginate_cursor ([3, 1, 4, 1, 5] : List Nat) 2 2
      = paginate_slice ([3, 1, 4, 1, 5] : List Nat) 2 2 :=
  c8_pagination_strategies_equivalent ([3, 1, 4, 1, 5] : List Nat) 2 2 (by decide) (by decide)

/-- C9 counterexample: the claim says identifiers not matching the
identifier pattern are rejected with ValidationError before any
role-creation statement.  The code validates nothing: with the
non-matching role name bad-role the CREATE ROLE statement is issued with
the identifier interpolated and the call reports success. -/
theorem c9_counterexample_no_identifier_validation :
    specIdentOk "bad-role" = false
    ∧ (create_role_and_user dbEmpty "bad-role" "newuser" "pw" (fun p => p)).trace.head?
        = some (Stmt.createRole "CREATE ROLE bad-role WITH LOGIN;")
    ∧ (create_role_and_user dbEmpty "bad-role" "newuser" "pw" (fun p => p)).result
        = Except.ok () := by
  refine ⟨by decide, by decide, rfl⟩

/-- C9 (amended): create_role_and_user performs no identifier validation
at all: for every role name and username the role-creation and grant
statements are issued with the identifiers interpolated verbatim, and no
ValidationError (or any other error) is ever raised. -/
theorem c9_amended_interpolation_without_validation (db : DB)
    (role_name username password : String) (hashpw : String → String) :
    (create_role_and_user db role_name username password hashpw).result = Except.ok ()
    ∧ (create_role_and_user db role_name username password hashpw).trace
      = [Stmt.createRole ("CREATE ROLE " ++ role_name ++ " WITH LOGIN;"),
         Stmt.grant ("GRANT INSERT ON Competitions TO " ++ role_name ++ ";"),
         Stmt.grant ("GRANT SELECT ON Athletes, Results TO " ++ role_name ++ ";"),
         Stmt.insert "Users"] :=
  ⟨rfl, rfl⟩

theorem readOnlyFrame_of_trace {α : Type} (r : DbResult α) (db : DB)
    (h1 : r.db = db)
    (h2 : r.trace.all (fun s => stmtIsSelect s && !(stmtTouchesUsers s)) = true) :
    readOnlyFrame r db := ⟨h1, h2⟩

set_option maxRecDepth 8192
set_option maxHeartbeats 1600000

theorem resultsQueryText_no_users (places sports : List String) (sort_by : Option SortBy) :
    strContainsSub (resultsQueryText places sports sort_by) "Users" = false := by
  rcases sort_by with _ | sb
  · cases places <;> cases sports <;> rfl
  · obtain ⟨k, o⟩ := sb
    by_cases hok : resultsSortOk ⟨k, o⟩
    · have hmem : k ∈ resultKeys := by
        have h := hok
        simp only [resultsSortOk, Bool.and_eq_true, decide_eq_true_eq] at h
        exact h.1
      simp only [resultKeys, List.mem_cons, List.not_mem_nil, or_false] at hmem
      by_cases hd : o.toLower == "desc" <;>
        rcases hmem with rfl | rfl | rfl | rfl | rfl | rfl <;>
          simp [resultsQueryText, hok, hd] <;>
            cases places <;> cases sports <;> rfl
    · simp [resultsQueryText, hok]
      cases places <;> cases sports <;> rfl

/-- C10: each read-only retrieval takes no username argument, issues only
SELECT statements, never touches the Users table (no role or user
lookup), and leaves the database state unchanged. -/
theorem c10_reads_select_only_and_pure (db : DB) (page ipp : Nat)
    (sb : Option SortBy) (place : String) (places sports : List String) :
    readOnlyFrame (retrieve_all_sports db) db
    ∧ readOnlyFrame (retrieve_athletes_page db page ipp sb) db
    ∧ readOnlyFrame (retrieve_competitions_from_place_page db place page ipp sb) db
    ∧ readOnlyFrame (retrieve_competition_places db) db
    ∧ readOnlyFrame (retrieve_all_results db) db
    ∧ readOnlyFrame (retrieve_results_from_sports_and_places_page db places sports page ipp sb) db
    ∧ readOnlyFrame (retrieve_all_genders db) db := by
  refine ⟨⟨rfl, rfl⟩, ?_, ?_, ⟨rfl, rfl⟩, ⟨rfl, rfl⟩, ?_, ⟨rfl, rfl⟩⟩
  · rcases sb with _ | ⟨k, o⟩
    · exact ⟨rfl, rfl⟩
    · by_cases hk : k ∈ athleteColumns
      · have hk2 : k = "id" ∨ k = "name" ∨ k = "gender" ∨ k = "height" := by
          simpa [athleteColumns] using hk
        rcases hk2 with rfl | rfl | rfl | rfl <;> by_cases ho : o == "desc" <;>
          refine readOnlyFrame_of_trace _ _ ?_ ?_ <;>
            simp [retrieve_athletes_page, athleteColumns, ho, stmtIsSelect, stmtTouchesUsers] <;>
              decide
      · refine readOnlyFrame_of_trace _ _ ?_ ?_ <;> simp [retrieve_athletes_page, hk]
  · rcases sb with _ | ⟨k, o⟩
    · exact ⟨rfl, rfl⟩
    · by_cases hk : k ∈ competitionColumns
      · have hk2 : k = "id" ∨ k = "place" ∨ k = "held" := by
          simpa [competitionColumns] using hk
        rcases hk2 with rfl | rfl | rfl <;> by_cases ho : o == "desc" <;>
          refine readOnlyFrame_of_trace _ _ ?_ ?_ <;>
            simp [retrieve_competitions_from_place_page, competitionColumns, ho,
              stmtIsSelect, stmtTouchesUsers] <;>
              decide
      · refine readOnlyFrame_of_trace _ _ ?_ ?_ <;>
          simp [retrieve_competitions_from_place_page, hk]
  · refine readOnlyFrame_of_trace _ _ rfl ?_
    simp [retrieve_results_from_sports_and_places_page, stmtIsSelect, stmtTouchesUsers,
      resultsQueryText_no_users]

end SqlVerk
